import Mathlib

/-!
Shallow embedding of the reporting script pullMSKStats.py.

Remote clients are modelled as explicit function parameters:
a CloudWatch client is a function from the request record it receives to the
list of datapoints it returns, and the cost-explorer client is a function from
its request record to either an error (a raised exception) or the list of
monthly UnblendedCost amounts.  Dates handled only by day arithmetic in
get_metric are modelled as integer day numbers; the cost query, whose claim
talks about calendar months, uses a calendar date type with the same
day-by-day subtraction semantics as Python timedelta.  Floats are modelled
as rationals.
-/

-- Metric Collection Period (in days)
def METRIC_COLLECTION_PERIOD_DAYS : Nat := 7

-- Aggregation Duration (in seconds)
def AGGREGATION_DURATION_SECONDS : Nat := 3600

def get_average_metrics : List String :=
  ["BytesInPerSec",
   "BytesOutPerSec",
   "MessagesInPerSec",
   "CpuUser"]

def get_peak_metrics : List String :=
  ["BytesInPerSec",
   "BytesOutPerSec",
   "MessagesInPerSec",
   "CpuUser",
   "ConnectionCount",
   "PartitionCount",
   "GlobalTopicCount",
   "EstimatedMaxTimeLag",
   "LeaderCount",
   "ReplicationBytesOutPerSec",
   "ReplicationBytesInPerSec",
   "MemoryFree",
   "MemoryUsed"]

/-- One Name/Value dimension of a get_metric_statistics request. -/
structure Dimension where
  name : String
  value : String
deriving DecidableEq, Repr

/-- The argument record passed to cloud_watch.get_metric_statistics.
Times are integer day numbers (the script only ever adds and subtracts
whole days before formatting). -/
structure MetricRequest where
  nspace : String
  metricName : String
  dimensions : List Dimension
  startTime : Int
  endTime : Int
  period : Nat
  statistics : List String
deriving DecidableEq, Repr

/-- One element of the Datapoints list of a get_metric_statistics response. -/
structure Datapoint where
  average : Rat
deriving DecidableEq, Repr

/-- The request record built inside get_metric: today = current date plus one
day, then = today minus time_period days, period = one hour for peak queries
and the whole window otherwise; the GlobalTopicCount branch sends only the
Cluster Name dimension, every other metric also sends Broker ID. -/
def metric_request (cluster_id : String) (node : Nat) (metric : String)
    (is_peak : Bool) (todayParam : Int) (time_period : Nat) : MetricRequest :=
  let today := todayParam + 1
  let start := today - (time_period : Int)
  let period := AGGREGATION_DURATION_SECONDS
  let period := if !is_peak then AGGREGATION_DURATION_SECONDS * 24 * time_period else period
  if metric ≠ "GlobalTopicCount" then
    { nspace := "AWS/Kafka"
      metricName := metric
      dimensions := [⟨"Cluster Name", cluster_id⟩, ⟨"Broker ID", toString node⟩]
      startTime := start
      endTime := today
      period := period
      statistics := ["Average"] }
  else
    { nspace := "AWS/Kafka"
      metricName := metric
      dimensions := [⟨"Cluster Name", cluster_id⟩]
      startTime := start
      endTime := today
      period := period
      statistics := ["Average"] }

/-- get_metric: send the request, then reduce the returned Datapoints with
rec_max = 0; for rec in Datapoints: if rec.Average > rec_max: rec_max = rec.Average. -/
def get_metric (cloud_watch : MetricRequest → List Datapoint) (cluster_id : String)
    (node : Nat) (metric : String) (is_peak : Bool) (todayParam : Int)
    (time_period : Nat := METRIC_COLLECTION_PERIOD_DAYS) : Rat :=
  (cloud_watch (metric_request cluster_id node metric is_peak todayParam time_period)).foldl
    (fun rec_max rec => if rec.average > rec_max then rec.average else rec_max) 0

/-- A spreadsheet cell: the script mixes string-rendered fields with numeric
metric values in the same row. -/
inductive Cell where
  | s : String → Cell
  | n : Rat → Cell
deriving DecidableEq, Repr

/-- A pandas DataFrame as written to a sheet: its column labels and its rows. -/
structure Frame where
  columns : List String
  rows : List (List Cell)
deriving DecidableEq, Repr

/-- create_data_frame: the empty cluster DataFrame with its header columns. -/
def create_data_frame : Frame :=
  { columns :=
      ["Region", "ClusterName", "NodeId", "NodeType", "KafkaVersion"]
        ++ get_average_metrics.map (fun metric => metric ++ " (avg over last week)")
        ++ get_peak_metrics.map (fun metric => metric ++ " (max over last week)")
    rows := [] }

/-- One cluster entry of ClusterInfoList, keeping the fields the script reads. -/
structure ClusterInstance where
  state : String
  clusterName : String
  numberOfBrokerNodes : Nat
  instanceType : String
  kafkaVersion : String
deriving DecidableEq, Repr

/-- The dictionary returned by get_clusters_info.  A Python dict is modelled
as an association list with insertion-order semantics: assigning to an
existing key replaces its value in place, a new key is appended. -/
structure ClustersInfo where
  msk_running_instances : List (String × ClusterInstance)
deriving DecidableEq, Repr

/-- Python dict assignment d[k] = v. -/
def dictInsert (d : List (String × ClusterInstance)) (k : String)
    (v : ClusterInstance) : List (String × ClusterInstance) :=
  if k ∈ d.map Prod.fst then
    d.map (fun p => if p.1 = k then (k, v) else p)
  else
    d ++ [(k, v)]

/-- The loop body of get_clusters_info: record an instance under its
ClusterName when its State is ACTIVE, otherwise leave the dictionary alone. -/
def record_active (acc : List (String × ClusterInstance))
    (instance_ : ClusterInstance) : List (String × ClusterInstance) :=
  if instance_.state = "ACTIVE" then
    dictInsert acc instance_.clusterName instance_
  else acc

/-- get_clusters_info: walk every page of list_clusters and record each
instance whose State is ACTIVE under its ClusterName. -/
def get_clusters_info (pages : List (List ClusterInstance)) : ClustersInfo :=
  { msk_running_instances :=
      pages.foldl (fun acc page => page.foldl record_active acc) [] }

/-- The active clusters in the order the paginated listing returns them. -/
def active_instances (pages : List (List ClusterInstance)) : List ClusterInstance :=
  pages.flatten.filter (fun instance_ => instance_.state = "ACTIVE")

/-- String key used by the discarded sort_values call: ClusterName is row
position 1 and NodeId row position 2, both stored as strings. -/
def cell_str : Cell → String
  | .s v => v
  | .n _ => ""

def row_le (a b : List Cell) : Bool :=
  let ka1 := cell_str (a.getD 1 (Cell.s ""))
  let ka2 := cell_str (a.getD 2 (Cell.s ""))
  let kb1 := cell_str (b.getD 1 (Cell.s ""))
  let kb2 := cell_str (b.getD 2 (Cell.s ""))
  decide (ka1 < kb1) || (ka1 == kb1 && decide (ka2 ≤ kb2))

def insert_row (r : List Cell) : List (List Cell) → List (List Cell)
  | [] => [r]
  | x :: xs => if row_le r x then r :: x :: xs else x :: insert_row r xs

/-- df.sort_values(by = ClusterName, NodeId): returns a sorted copy. -/
def sort_values : List (List Cell) → List (List Cell)
  | [] => []
  | x :: xs => insert_row x (sort_values xs)

/-- The row appended for one (cluster, broker node) pair: region, cluster
name, node id, instance type, Kafka version as strings, then every average
metric with is_peak = false and every peak metric with is_peak = true. -/
def cluster_row (cloud_watch : MetricRequest → List Datapoint) (region : String)
    (instanceId : String) (details : ClusterInstance) (nodeId : Nat)
    (todayParam : Int) : List Cell :=
  [Cell.s region, Cell.s instanceId, Cell.s (toString nodeId),
   Cell.s details.instanceType, Cell.s details.kafkaVersion]
    ++ get_average_metrics.map
        (fun metric => Cell.n (get_metric cloud_watch instanceId nodeId metric false todayParam))
    ++ get_peak_metrics.map
        (fun metric => Cell.n (get_metric cloud_watch instanceId nodeId metric true todayParam))

/-- write_cluster_info: for each running instance in dictionary order and each
nodeId in range(1, NumberOfBrokerNodes + 1), append one row at the next index;
finally call df.sort_values(...) whose result is not assigned to anything. -/
def write_cluster_info (clusters_info : ClustersInfo)
    (cloud_watch : MetricRequest → List Datapoint) (todayParam : Int)
    (region : String) : List (List Cell) :=
  let rows :=
    clusters_info.msk_running_instances.foldl
      (fun acc p =>
        (List.range' 1 p.2.numberOfBrokerNodes).foldl
          (fun acc2 nodeId =>
            acc2 ++ [cluster_row cloud_watch region p.1 p.2 nodeId todayParam])
          acc)
      []
  let _sorted := sort_values rows
  rows

/-- A calendar date with Python date semantics; subtraction of a timedelta of
n days walks back day by day through month and year boundaries. -/
structure CalDate where
  year : Int
  month : Nat
  day : Nat
deriving DecidableEq, Repr

def isLeap (y : Int) : Bool :=
  (y % 4 == 0 && y % 100 != 0) || (y % 400 == 0)

def daysInMonth (y : Int) (m : Nat) : Nat :=
  if m = 2 then (if isLeap y then 29 else 28)
  else if m = 4 ∨ m = 6 ∨ m = 9 ∨ m = 11 then 30
  else 31

def prevDay (d : CalDate) : CalDate :=
  if d.day > 1 then { d with day := d.day - 1 }
  else if d.month > 1 then
    { year := d.year, month := d.month - 1, day := daysInMonth d.year (d.month - 1) }
  else
    { year := d.year - 1, month := 12, day := 31 }

def subDays (d : CalDate) : Nat → CalDate
  | 0 => d
  | n + 1 => subDays (prevDay d) n

/-- The argument record passed to ce.get_cost_and_usage.  The script passes no
GroupBy argument at all, modelled as the empty groupBy list. -/
structure CostRequest where
  startDate : CalDate
  endDate : CalDate
  granularity : String
  filterRegionValues : List String
  filterServiceValues : List String
  metrics : List String
  groupBy : List String
deriving DecidableEq, Repr

/-- The request built inside get_costs: start = now minus 30 days, end = now,
MONTHLY granularity, filtered by the session region and the Kafka service,
metric UnblendedCost, no grouping. -/
def cost_request (now : CalDate) (region : String) : CostRequest :=
  { startDate := subDays now 30
    endDate := now
    granularity := "MONTHLY"
    filterRegionValues := [region]
    filterServiceValues := ["Amazon Managed Streaming for Apache Kafka"]
    metrics := ["UnblendedCost"]
    groupBy := [] }

/-- get_costs: call the cost explorer (an exception from the call is the error
branch, which get_costs does not catch) and sum the UnblendedCost amounts of
every result in ResultsByTime. -/
def get_costs (ce : CostRequest → Except String (List Rat)) (now : CalDate)
    (region : String) : Except String Rat :=
  match ce (cost_request now region) with
  | .error e => .error e
  | .ok results => .ok (results.foldl (fun costs amount => costs + amount) 0)

/-- The workbook as saved by writer.save(): its file path and its sheets in
the order they were written. -/
structure SavedWorkbook where
  path : String
  sheets : List (String × Frame)
deriving DecidableEq, Repr

/-- process_aws_account: build the cluster DataFrame, write it as sheet
ClusterData, then call get_costs; a raised exception propagates and
writer.save() is never reached, otherwise the Costs sheet holds the single
costs value and the workbook is saved. -/
def process_aws_account (region sectionName outDir : String)
    (pages : List (List ClusterInstance))
    (cloud_watch : MetricRequest → List Datapoint)
    (ce : CostRequest → Except String (List Rat))
    (todayParam : Int) (now : CalDate) : Except String SavedWorkbook :=
  let output_file_path := outDir ++ "/" ++ sectionName ++ "-" ++ region ++ ".xlsx"
  let cluster_df := create_data_frame
  let clusters_info := get_clusters_info pages
  let cluster_df :=
    { cluster_df with rows := write_cluster_info clusters_info cloud_watch todayParam region }
  match get_costs ce now region with
  | .error e => .error e
  | .ok costs =>
      .ok { path := output_file_path
            sheets := [("ClusterData", cluster_df),
                       ("Costs", { columns := ["costs"], rows := [[Cell.n costs]] })] }

/-- Modelled from the spec: the maximum Average value across the returned
data points of a nonempty response (the quantity the spec says the fetcher
returns). -/
def spec_max_average : List Datapoint → Rat
  | [] => 0
  | h :: t => t.foldl (fun m r => max m r.average) h.average

/-- Modelled from the spec: the first day of the month of a date. -/
def spec_first_of_month (d : CalDate) : CalDate :=
  { d with day := 1 }

/-- Modelled from the spec: the first day of the month before the month of a
date. -/
def spec_first_of_prior_month (d : CalDate) : CalDate :=
  if d.month = 1 then { year := d.year - 1, month := 12, day := 1 }
  else { year := d.year, month := d.month - 1, day := 1 }

/-- A CloudWatch client returning no datapoints for every request. -/
def cw_zero : MetricRequest → List Datapoint := fun _ => []

/-- A CloudWatch client returning one datapoint with a negative Average. -/
def cw_neg : MetricRequest → List Datapoint := fun _ => [{ average := -1 }]

/-- A cost explorer whose call raises an exception. -/
def ce_fail : CostRequest → Except String (List Rat) := fun _ => .error "AccessDenied"

/-- A cost explorer returning two monthly results of 5/2 each. -/
def ce_two : CostRequest → Except String (List Rat) := fun _ => .ok [5/2, 5/2]

instance exceptDecEq {ε α : Type} [DecidableEq ε] [DecidableEq α] :
    DecidableEq (Except ε α) := fun a b =>
  match a, b with
  | .error x, .error y =>
      if h : x = y then isTrue (congrArg Except.error h)
      else isFalse (fun hc => h (Except.error.inj hc))
  | .ok x, .ok y =>
      if h : x = y then isTrue (congrArg Except.ok h)
      else isFalse (fun hc => h (Except.ok.inj hc))
  | .error _, .ok _ => isFalse (fun hc => Except.noConfusion hc)
  | .ok _, .error _ => isFalse (fun hc => Except.noConfusion hc)

lemma foldl_if_eq_foldl_max (l : List Datapoint) (init : Rat) :
    l.foldl (fun rec_max rec => if rec.average > rec_max then rec.average else rec_max) init
      = l.foldl (fun m r => max m r.average) init := by
  induction l generalizing init with
  | nil => rfl
  | cons h t ih =>
      simp only [List.foldl_cons]
      rw [ih]
      congr 1
      rcases lt_or_le init h.average with hlt | hle
      · rw [if_pos hlt, max_eq_right hlt.le]
      · rw [if_neg (not_lt.mpr hle), max_eq_left hle]

lemma foldl_max_shift (l : List Datapoint) (a b : Rat) :
    l.foldl (fun m r => max m r.average) (max a b)
      = max a (l.foldl (fun m r => max m r.average) b) := by
  induction l generalizing b with
  | nil => rfl
  | cons h t ih =>
      simp only [List.foldl_cons]
      rw [max_assoc, ih]

lemma get_metric_eq_max_zero (cloud_watch : MetricRequest → List Datapoint)
    (c : String) (n : Nat) (m : String) (pk : Bool) (t : Int) (p : Nat) :
    get_metric cloud_watch c n m pk t p
      = max 0 (spec_max_average (cloud_watch (metric_request c n m pk t p))) := by
  unfold get_metric
  rw [foldl_if_eq_foldl_max]
  cases hl : cloud_watch (metric_request c n m pk t p) with
  | nil => simp [spec_max_average]
  | cons h t2 =>
      simp only [List.foldl_cons, spec_max_average]
      have h0 : max (0 : Rat) h.average
          = max 0 h.average := rfl
      calc (t2.foldl (fun m r => max m r.average) (max 0 h.average))
          = max 0 (t2.foldl (fun m r => max m r.average) h.average) :=
            foldl_max_shift t2 0 h.average

lemma le_foldl_max (l : List Datapoint) (b : Rat) :
    b ≤ l.foldl (fun m r => max m r.average) b := by
  induction l generalizing b with
  | nil => exact le_refl b
  | cons h t ih =>
      simp only [List.foldl_cons]
      exact le_trans (le_max_left b h.average) (ih (max b h.average))

/-- Claim C6: for every metric query with collection period p days, the
request window ends on the day after the current date and starts p days
before that end, with an aggregation period of 3600 seconds when the peak
flag is set and a single 3600 * 24 * p second bucket otherwise. -/
theorem C6_metric_window (c : String) (n : Nat) (m : String) (pk : Bool)
    (t : Int) (p : Nat) :
    (metric_request c n m pk t p).endTime = t + 1 ∧
    (metric_request c n m pk t p).startTime = (t + 1) - (p : Int) ∧
    (metric_request c n m pk t p).period
      = (if pk then AGGREGATION_DURATION_SECONDS
         else AGGREGATION_DURATION_SECONDS * 24 * p) := by
  by_cases hm : m = "GlobalTopicCount" <;> cases pk <;>
    simp [metric_request, hm]

/-- Claim C7: the GlobalTopicCount query sends only the Cluster Name
dimension, and every other metric sends both Cluster Name and Broker ID. -/
theorem C7_dimensions (c : String) (n : Nat) (m : String) (pk : Bool)
    (t : Int) (p : Nat) :
    (metric_request c n "GlobalTopicCount" pk t p).dimensions
        = [⟨"Cluster Name", c⟩] ∧
    (m ≠ "GlobalTopicCount" →
      (metric_request c n m pk t p).dimensions
        = [⟨"Cluster Name", c⟩, ⟨"Broker ID", toString n⟩]) := by
  constructor
  · simp [metric_request]
  · intro hm
    simp [metric_request, hm]

/-- Witness for C7 at the BytesInPerSec metric. -/
theorem C7_dimensions_witness :
    (metric_request "c" 1 "BytesInPerSec" true 0 7).dimensions
      = [⟨"Cluster Name", "c"⟩, ⟨"Broker ID", toString 1⟩] :=
  (C7_dimensions "c" 1 "BytesInPerSec" true 0 7).2 (by decide)

/-- Claim C8: a metric query whose response holds zero datapoints returns
exactly 0. -/
theorem C8_empty_response (cloud_watch : MetricRequest → List Datapoint)
    (c : String) (n : Nat) (m : String) (pk : Bool) (t : Int) (p : Nat)
    (h : cloud_watch (metric_request c n m pk t p) = []) :
    get_metric cloud_watch c n m pk t p = 0 := by
  unfold get_metric
  rw [h]
  rfl

/-- Witness for C8 with a client returning no datapoints. -/
theorem C8_empty_response_witness :
    get_metric cw_zero "c" 1 "BytesInPerSec" false 0 7 = 0 :=
  C8_empty_response cw_zero "c" 1 "BytesInPerSec" false 0 7 rfl

/-- Claim C9: the fetched scalar is always non-negative and equals the
maximum of 0 and the Average values of the returned datapoints, so an
all-negative response yields 0. -/
theorem C9_clamped_maximum (cloud_watch : MetricRequest → List Datapoint)
    (c : String) (n : Nat) (m : String) (pk : Bool) (t : Int) (p : Nat) :
    0 ≤ get_metric cloud_watch c n m pk t p ∧
    get_metric cloud_watch c n m pk t p
      = max 0 (spec_max_average (cloud_watch (metric_request c n m pk t p))) := by
  refine ⟨?_, get_metric_eq_max_zero cloud_watch c n m pk t p⟩
  rw [get_metric_eq_max_zero]
  exact le_max_left 0 _

/-- Claim C4 as stated is false: with a single datapoint of Average -1 the
fetcher returns 0, not the maximum Average value -1. -/
theorem C4_counterexample :
    get_metric cw_neg "c" 1 "BytesInPerSec" true 0 7 = 0 ∧
    spec_max_average (cw_neg (metric_request "c" 1 "BytesInPerSec" true 0 7)) = -1 ∧
    (0 : Rat) ≠ -1 := by
  refine ⟨rfl, rfl, by norm_num⟩

/-- Claim C4 amended: for a response with at least one datapoint the scalar
equals the maximum Average value clamped below at 0. -/
theorem C4_amended (cloud_watch : MetricRequest → List Datapoint)
    (c : String) (n : Nat) (m : String) (pk : Bool) (t : Int) (p : Nat)
    (_hne : cloud_watch (metric_request c n m pk t p) ≠ []) :
    get_metric cloud_watch c n m pk t p
      = max 0 (spec_max_average (cloud_watch (metric_request c n m pk t p))) :=
  get_metric_eq_max_zero cloud_watch c n m pk t p

/-- Witness for the amended C4 at a negative single-datapoint response. -/
theorem C4_amended_witness :
    get_metric cw_neg "c" 1 "BytesInPerSec" true 0 7
      = max 0 (spec_max_average (cw_neg (metric_request "c" 1 "BytesInPerSec" true 0 7))) :=
  C4_amended cw_neg "c" 1 "BytesInPerSec" true 0 7 (by decide)

lemma except_match_map (x : Except String (List Rat)) (f : List Rat → Rat) :
    (match x with
     | .error e => Except.error e
     | .ok results => Except.ok (f results)) = x.map f := by
  cases x <;> rfl

/-- Claim C1 as stated is false: an exception raised by the billing call is
not caught; get_costs and process_aws_account both end in that error, so no
workbook is saved at all. -/
theorem C1_counterexample :
    get_costs ce_fail ⟨2026, 10, 12⟩ "us-east-1" = Except.error "AccessDenied" ∧
    process_aws_account "us-east-1" "default" "." [] cw_zero ce_fail 0 ⟨2026, 10, 12⟩
      = Except.error "AccessDenied" :=
  ⟨rfl, rfl⟩

/-- Claim C1 amended: any exception from the billing API call propagates out
of get_costs and out of process_aws_account, so the account report aborts
with that error and the workbook, cluster sheet included, is never saved. -/
theorem C1_amended (region sectionName outDir : String)
    (pages : List (List ClusterInstance))
    (cloud_watch : MetricRequest → List Datapoint)
    (ce : CostRequest → Except String (List Rat))
    (t : Int) (now : CalDate) (e : String)
    (h : ce (cost_request now region) = .error e) :
    get_costs ce now region = .error e ∧
    process_aws_account region sectionName outDir pages cloud_watch ce t now
      = .error e := by
  have hg : get_costs ce now region = .error e := by
    unfold get_costs
    rw [h]
  refine ⟨hg, ?_⟩
  unfold process_aws_account
  rw [hg]

/-- Witness for the amended C1 with a failing cost explorer. -/
theorem C1_amended_witness :
    get_costs ce_fail ⟨2026, 10, 12⟩ "eu-west-1" = Except.error "AccessDenied" ∧
    process_aws_account "eu-west-1" "acct" "out" [] cw_zero ce_fail 0 ⟨2026, 10, 12⟩
      = Except.error "AccessDenied" :=
  C1_amended "eu-west-1" "acct" "out" [] cw_zero ce_fail 0 ⟨2026, 10, 12⟩
    "AccessDenied" rfl

/-- Claim C2 as stated is false: on a successful cost query the Costs sheet
is a single costs column with a single summed row, with no per-usage-type
rows and no ALL sentinel row anywhere. -/
theorem C2_counterexample :
    process_aws_account "us-east-1" "default" "." [] cw_zero ce_two 0 ⟨2026, 10, 12⟩
      = Except.ok
          { path := "./default-us-east-1.xlsx"
            sheets :=
              [("ClusterData", { columns := create_data_frame.columns, rows := [] }),
               ("Costs",
                { columns := ["costs"]
                  rows := [[Cell.n (([5/2, 5/2] : List Rat).foldl
                              (fun costs amount => costs + amount) 0)]] })] } ∧
    ([5/2, 5/2] : List Rat).foldl (fun costs amount => costs + amount) 0 = 5 ∧
    Cell.s "ALL"
      ∉ [[Cell.n (([5/2, 5/2] : List Rat).foldl
            (fun costs amount => costs + amount) 0)]].flatten := by
  refine ⟨rfl, by norm_num [List.foldl], by decide⟩

/-- Claim C2 amended: whenever the billing call succeeds, the Costs sheet
consists of the single column costs and the single row holding the sum of
the returned monthly UnblendedCost amounts. -/
theorem C2_amended (region sectionName outDir : String)
    (pages : List (List ClusterInstance))
    (cloud_watch : MetricRequest → List Datapoint)
    (ce : CostRequest → Except String (List Rat))
    (t : Int) (now : CalDate) (amounts : List Rat)
    (h : ce (cost_request now region) = .ok amounts) :
    ∃ clusterSheet,
      process_aws_account region sectionName outDir pages cloud_watch ce t now
        = Except.ok
            { path := outDir ++ "/" ++ sectionName ++ "-" ++ region ++ ".xlsx"
              sheets :=
                [("ClusterData", clusterSheet),
                 ("Costs",
                  { columns := ["costs"]
                    rows := [[Cell.n (amounts.foldl (fun costs amount => costs + amount) 0)]] })] } := by
  refine ⟨{ create_data_frame with
            rows := write_cluster_info (get_clusters_info pages) cloud_watch t region }, ?_⟩
  unfold process_aws_account get_costs
  rw [h]

/-- Witness for the amended C2 with two monthly results of 5/2 each. -/
theorem C2_amended_witness :
    ∃ clusterSheet,
      process_aws_account "us-east-1" "default" "." [] cw_zero ce_two 0 ⟨2026, 10, 12⟩
        = Except.ok
            { path := "." ++ "/" ++ "default" ++ "-" ++ "us-east-1" ++ ".xlsx"
              sheets :=
                [("ClusterData", clusterSheet),
                 ("Costs",
                  { columns := ["costs"]
                    rows := [[Cell.n ([5/2, 5/2].foldl (fun costs amount => costs + amount) 0)]] })] } :=
  C2_amended "us-east-1" "default" "." [] cw_zero ce_two 0 ⟨2026, 10, 12⟩
    [5/2, 5/2] rfl

/-- Claim C3 as stated is false: on 2026-10-12 the code window runs from
2026-09-12 to 2026-10-12, not from the first day of the prior month to the
first day of the current month, and no group-by is sent. -/
theorem C3_counterexample :
    (cost_request ⟨2026, 10, 12⟩ "us-east-1").startDate = ⟨2026, 9, 12⟩ ∧
    (cost_request ⟨2026, 10, 12⟩ "us-east-1").startDate
      ≠ spec_first_of_prior_month ⟨2026, 10, 12⟩ ∧
    (cost_request ⟨2026, 10, 12⟩ "us-east-1").endDate
      ≠ spec_first_of_month ⟨2026, 10, 12⟩ ∧
    (cost_request ⟨2026, 10, 12⟩ "us-east-1").groupBy = [] := by
  decide

/-- Claim C3 amended: the cost collector sends exactly one request, with
start 30 days before the current date, end the current date, MONTHLY
granularity, region and Kafka-service filters, metric UnblendedCost and no
group-by, and returns the summed amounts of the results. -/
theorem C3_amended (ce : CostRequest → Except String (List Rat))
    (now : CalDate) (region : String) :
    get_costs ce now region
      = (ce { startDate := subDays now 30
              endDate := now
              granularity := "MONTHLY"
              filterRegionValues := [region]
              filterServiceValues := ["Amazon Managed Streaming for Apache Kafka"]
              metrics := ["UnblendedCost"]
              groupBy := [] }).map
          (fun results => results.foldl (fun costs amount => costs + amount) 0) := by
  unfold get_costs cost_request
  exact except_match_map _ _

lemma foldl_append_map {α β : Type} (l : List α) (f : α → β) (acc : List β) :
    l.foldl (fun a x => a ++ [f x]) acc = acc ++ l.map f := by
  induction l generalizing acc with
  | nil => simp
  | cons h t ih =>
      simp only [List.foldl_cons, List.map_cons]
      rw [ih]
      simp

lemma foldl_append_flatMap {α β : Type} (l : List α) (g : α → List β) (acc : List β) :
    l.foldl (fun a x => a ++ g x) acc = acc ++ l.flatMap g := by
  induction l generalizing acc with
  | nil => simp
  | cons h t ih =>
      simp only [List.foldl_cons, List.flatMap_cons]
      rw [ih]
      simp

lemma write_cluster_info_rows (clusters_info : ClustersInfo)
    (cloud_watch : MetricRequest → List Datapoint) (t : Int) (region : String) :
    write_cluster_info clusters_info cloud_watch t region
      = clusters_info.msk_running_instances.flatMap
          (fun p => (List.range' 1 p.2.numberOfBrokerNodes).map
            (fun nodeId => cluster_row cloud_watch region p.1 p.2 nodeId t)) := by
  have hinner : ∀ (p : String × ClusterInstance) (acc : List (List Cell)),
      (List.range' 1 p.2.numberOfBrokerNodes).foldl
        (fun acc2 nodeId => acc2 ++ [cluster_row cloud_watch region p.1 p.2 nodeId t]) acc
        = acc ++ (List.range' 1 p.2.numberOfBrokerNodes).map
            (fun nodeId => cluster_row cloud_watch region p.1 p.2 nodeId t) :=
    fun p acc => foldl_append_map _ _ _
  simp only [write_cluster_info]
  simp only [hinner]
  rw [foldl_append_flatMap]
  simp

lemma dictInsert_not_mem (d : List (String × ClusterInstance)) (k : String)
    (v : ClusterInstance) (h : k ∉ d.map Prod.fst) :
    dictInsert d k v = d ++ [(k, v)] := by
  unfold dictInsert
  rw [if_neg h]

lemma foldl_record_active (l : List ClusterInstance)
    (acc : List (String × ClusterInstance))
    (h : (acc.map Prod.fst
          ++ (l.filter (fun i => i.state = "ACTIVE")).map
              (fun i => i.clusterName)).Nodup) :
    l.foldl record_active acc
      = acc ++ (l.filter (fun i => i.state = "ACTIVE")).map
          (fun i => (i.clusterName, i)) := by
  induction l generalizing acc with
  | nil => simp
  | cons i t ih =>
      by_cases hs : i.state = "ACTIVE"
      · have hfc : (i :: t).filter (fun x => x.state = "ACTIVE")
            = i :: t.filter (fun x => x.state = "ACTIVE") := by
          simp [List.filter_cons, hs]
        rw [hfc] at h
        rw [hfc]
        simp only [List.map_cons] at h
        have hnm : i.clusterName ∉ acc.map Prod.fst := fun hmem =>
          (List.disjoint_of_nodup_append h) hmem (List.mem_cons_self _ _)
        have hstep : (i :: t).foldl record_active acc
            = t.foldl record_active (acc ++ [(i.clusterName, i)]) := by
          simp only [List.foldl_cons, record_active]
          rw [if_pos hs, dictInsert_not_mem _ _ _ hnm]
        rw [hstep]
        have h2 : ((acc ++ [(i.clusterName, i)]).map Prod.fst
            ++ (t.filter (fun x => x.state = "ACTIVE")).map
                (fun x => x.clusterName)).Nodup := by
          simpa [List.map_append, List.append_assoc] using h
        rw [ih _ h2]
        simp
      · have hfc : (i :: t).filter (fun x => x.state = "ACTIVE")
            = t.filter (fun x => x.state = "ACTIVE") := by
          simp [List.filter_cons, hs]
        rw [hfc] at h
        rw [hfc]
        have hstep : (i :: t).foldl record_active acc = t.foldl record_active acc := by
          simp only [List.foldl_cons, record_active]
          rw [if_neg hs]
        rw [hstep]
        exact ih _ h

lemma foldl_pages_flatten (pages : List (List ClusterInstance))
    (acc : List (String × ClusterInstance)) :
    pages.foldl (fun acc page => page.foldl record_active acc) acc
      = pages.flatten.foldl record_active acc := by
  induction pages generalizing acc with
  | nil => rfl
  | cons p ps ih =>
      simp only [List.foldl_cons, List.flatten_cons, List.foldl_append]
      exact ih _

lemma get_clusters_info_eq (pages : List (List ClusterInstance))
    (h : ((active_instances pages).map (fun i => i.clusterName)).Nodup) :
    get_clusters_info pages
      = { msk_running_instances :=
            (active_instances pages).map (fun i => (i.clusterName, i)) } := by
  unfold get_clusters_info
  rw [foldl_pages_flatten]
  unfold active_instances at h ⊢
  rw [foldl_record_active pages.flatten [] (by simpa using h)]
  simp

/-- Claim C10: the cluster sheet rows follow the order in which the paginated
listing returns active clusters, node ids ascending 1..N inside each cluster;
the sort_values call discards its result and leaves the order unchanged. -/
theorem C10_row_order (pages : List (List ClusterInstance))
    (cloud_watch : MetricRequest → List Datapoint) (t : Int) (region : String)
    (h : ((active_instances pages).map (fun i => i.clusterName)).Nodup) :
    write_cluster_info (get_clusters_info pages) cloud_watch t region
      = (active_instances pages).flatMap
          (fun i => (List.range' 1 i.numberOfBrokerNodes).map
            (fun nodeId => cluster_row cloud_watch region i.clusterName i nodeId t)) := by
  rw [get_clusters_info_eq pages h, write_cluster_info_rows]
  rw [List.flatMap_map]

/-- Witness for C10: an out-of-alphabetical-order listing with an inactive
cluster in the middle. -/
theorem C10_row_order_witness :
    ((active_instances
        [[{ state := "ACTIVE", clusterName := "beta", numberOfBrokerNodes := 1,
            instanceType := "kafka.m5.large", kafkaVersion := "2.8.1" }],
         [{ state := "DELETING", clusterName := "gamma", numberOfBrokerNodes := 1,
            instanceType := "kafka.m5.large", kafkaVersion := "2.8.1" },
          { state := "ACTIVE", clusterName := "alpha", numberOfBrokerNodes := 2,
            instanceType := "kafka.t3.small", kafkaVersion := "3.3.1" }]]).map
      (fun i => i.clusterName)).Nodup ∧
    write_cluster_info
        (get_clusters_info
          [[{ state := "ACTIVE", clusterName := "beta", numberOfBrokerNodes := 1,
              instanceType := "kafka.m5.large", kafkaVersion := "2.8.1" }],
           [{ state := "DELETING", clusterName := "gamma", numberOfBrokerNodes := 1,
              instanceType := "kafka.m5.large", kafkaVersion := "2.8.1" },
            { state := "ACTIVE", clusterName := "alpha", numberOfBrokerNodes := 2,
              instanceType := "kafka.t3.small", kafkaVersion := "3.3.1" }]])
        cw_zero 0 "us-east-1"
      = (active_instances
          [[{ state := "ACTIVE", clusterName := "beta", numberOfBrokerNodes := 1,
              instanceType := "kafka.m5.large", kafkaVersion := "2.8.1" }],
           [{ state := "DELETING", clusterName := "gamma", numberOfBrokerNodes := 1,
              instanceType := "kafka.m5.large", kafkaVersion := "2.8.1" },
            { state := "ACTIVE", clusterName := "alpha", numberOfBrokerNodes := 2,
              instanceType := "kafka.t3.small", kafkaVersion := "3.3.1" }]]).flatMap
          (fun i => (List.range' 1 i.numberOfBrokerNodes).map
            (fun nodeId => cluster_row cw_zero "us-east-1" i.clusterName i nodeId 0)) :=
  ⟨by decide,
   C10_row_order
     [[{ state := "ACTIVE", clusterName := "beta", numberOfBrokerNodes := 1,
         instanceType := "kafka.m5.large", kafkaVersion := "2.8.1" }],
      [{ state := "DELETING", clusterName := "gamma", numberOfBrokerNodes := 1,
         instanceType := "kafka.m5.large", kafkaVersion := "2.8.1" },
       { state := "ACTIVE", clusterName := "alpha", numberOfBrokerNodes := 2,
         instanceType := "kafka.t3.small", kafkaVersion := "3.3.1" }]]
     cw_zero 0 "us-east-1" (by decide)⟩

/-- Claim C5 as stated is false: the sheet has 22 columns, five cluster-level
fields plus the metric columns, not the six (including a storage size column)
the claim lists. -/
theorem C5_counterexample :
    create_data_frame.columns.length
      = 5 + (get_average_metrics.length + get_peak_metrics.length) ∧
    create_data_frame.columns.length
      ≠ 6 + (get_average_metrics.length + get_peak_metrics.length) := by
  decide

/-- Claim C5 amended: every row carries region, cluster name, node id, node
type and software version (no storage size column), then one column per
average metric and one per peak metric, in the fixed column order of the
sheet header. -/
theorem C5_amended (clusters_info : ClustersInfo)
    (cloud_watch : MetricRequest → List Datapoint) (t : Int) (region : String)
    (row : List Cell)
    (h : row ∈ write_cluster_info clusters_info cloud_watch t region) :
    create_data_frame.columns
      = ["Region", "ClusterName", "NodeId", "NodeType", "KafkaVersion"]
          ++ get_average_metrics.map (fun metric => metric ++ " (avg over last week)")
          ++ get_peak_metrics.map (fun metric => metric ++ " (max over last week)") ∧
    row.length = create_data_frame.columns.length ∧
    ∃ p ∈ clusters_info.msk_running_instances,
      ∃ nodeId ∈ List.range' 1 p.2.numberOfBrokerNodes,
        row = [Cell.s region, Cell.s p.1, Cell.s (toString nodeId),
               Cell.s p.2.instanceType, Cell.s p.2.kafkaVersion]
            ++ get_average_metrics.map
                (fun metric => Cell.n (get_metric cloud_watch p.1 nodeId metric false t))
            ++ get_peak_metrics.map
                (fun metric => Cell.n (get_metric cloud_watch p.1 nodeId metric true t)) := by
  rw [write_cluster_info_rows] at h
  obtain ⟨p, hp, hrow⟩ := List.mem_flatMap.mp h
  obtain ⟨nodeId, hn, hr⟩ := List.mem_map.mp hrow
  refine ⟨rfl, ?_, ⟨p, hp, nodeId, hn, ?_⟩⟩
  · rw [← hr]
    simp [cluster_row, create_data_frame]
  · rw [← hr]
    rfl

/-- Witness for the amended C5 at a one-cluster, one-node listing. -/
theorem C5_amended_witness :
    (cluster_row cw_zero "r" "c1"
        { state := "ACTIVE", clusterName := "c1", numberOfBrokerNodes := 1,
          instanceType := "kafka.m5.large", kafkaVersion := "2.8.1" } 1 0
      ∈ write_cluster_info
          { msk_running_instances :=
              [("c1",
                { state := "ACTIVE", clusterName := "c1", numberOfBrokerNodes := 1,
                  instanceType := "kafka.m5.large", kafkaVersion := "2.8.1" })] }
          cw_zero 0 "r") ∧
    (create_data_frame.columns
        = ["Region", "ClusterName", "NodeId", "NodeType", "KafkaVersion"]
            ++ get_average_metrics.map (fun metric => metric ++ " (avg over last week)")
            ++ get_peak_metrics.map (fun metric => metric ++ " (max over last week)") ∧
     (cluster_row cw_zero "r" "c1"
        { state := "ACTIVE", clusterName := "c1", numberOfBrokerNodes := 1,
          instanceType := "kafka.m5.large", kafkaVersion := "2.8.1" } 1 0).length
        = create_data_frame.columns.length ∧
     ∃ p ∈ ({ msk_running_instances :=
              [("c1",
                { state := "ACTIVE", clusterName := "c1", numberOfBrokerNodes := 1,
                  instanceType := "kafka.m5.large", kafkaVersion := "2.8.1" })] } :
              ClustersInfo).msk_running_instances,
       ∃ nodeId ∈ List.range' 1 p.2.numberOfBrokerNodes,
         cluster_row cw_zero "r" "c1"
             { state := "ACTIVE", clusterName := "c1", numberOfBrokerNodes := 1,
               instanceType := "kafka.m5.large", kafkaVersion := "2.8.1" } 1 0
           = [Cell.s "r", Cell.s p.1, Cell.s (toString nodeId),
              Cell.s p.2.instanceType, Cell.s p.2.kafkaVersion]
               ++ get_average_metrics.map
                   (fun metric => Cell.n (get_metric cw_zero p.1 nodeId metric false 0))
               ++ get_peak_metrics.map
                   (fun metric => Cell.n (get_metric cw_zero p.1 nodeId metric true 0))) :=
  ⟨by decide,
   C5_amended
     { msk_running_instances :=
         [("c1",
           { state := "ACTIVE", clusterName := "c1", numberOfBrokerNodes := 1,
             instanceType := "kafka.m5.large", kafkaVersion := "2.8.1" })] }
     cw_zero 0 "r"
     (cluster_row cw_zero "r" "c1"
       { state := "ACTIVE", clusterName := "c1", numberOfBrokerNodes := 1,
         instanceType := "kafka.m5.large", kafkaVersion := "2.8.1" } 1 0)
     (by decide)⟩
